import Mathlib

/-!
Verification development for the realtime voice session manager of the
rag-app repository.  The definitions below are a shallow embedding of the
TypeScript source:

* `lib/realtimeConnection.ts` — `sendRealtimeMessage`, `updateSession`
  (outgoing event codec and session-update truncation);
* `lib/hooks/useRealtimeVoice.ts` — the session state machine
  (`connect`, `disconnect`, `toggleVoiceMode`, `startRecording`,
  `stopRecording`, `setContext`, `attemptReconnect`, `cleanupConnections`,
  ICE / connection-state handlers);
* `app/api/realtime/socket/route.ts` — the `response.done` transcript
  accumulation.

React's `setState` merges are modelled as sequentially applied record
updates; asynchronous handler bodies are modelled as atomic events of a
small-step transition system; callbacks, outgoing data-channel frames and
timer schedulings are modelled as an emitted list of `Action`s.
-/

namespace RagApp

/-- `RTCDataChannel.readyState` values.  `opened` stands for the JS string
value "open". -/
inductive ChannelState
  | connecting
  | opened
  | closing
  | closed
  deriving DecidableEq, Repr

/-- The `turn_detection` descriptor built in `updateSession` when not in
push-to-talk mode (`type: 'server_vad'`). -/
structure TurnDetection where
  threshold : ℚ
  padBeforeMs : ℕ
  silenceDurationMs : ℕ
  createResponse : Bool
  deriving DecidableEq, Repr

/-- The `session` payload of a `session.update` frame, as assembled in
`updateSession` of `lib/realtimeConnection.ts`. -/
structure SessionConfig where
  modalities : List String
  instructions : String
  voice : String
  responseFormat : String
  inputAudioFormat : String
  outputAudioFormat : String
  audioSampleRate : ℕ
  audioBitDepth : ℕ
  transcriptionModel : String
  turnDetection : Option TurnDetection
  deriving DecidableEq, Repr

/-- Outgoing data-channel frames, discriminated by their `type` field. -/
inductive RealtimeMsg
  | inputAudioBufferClear
  | inputAudioBufferCommit
  | inputAudioBufferAppend (audio : String)
  | responseCreate
  | sessionUpdate (session : SessionConfig)
  deriving DecidableEq, Repr

/-- `sendRealtimeMessage` of `lib/realtimeConnection.ts`.  The source
checks `dataChannel.readyState === 'open'`, then serializes and calls
`dataChannel.send` inside a try/catch that returns `false` when the send
throws.  `sendOk` models whether `JSON.stringify`/`dataChannel.send`
succeeds.  The result is the returned boolean together with the list of
frames actually transmitted on the channel. -/
def sendRealtimeMessage (readyState : ChannelState) (sendOk : Bool)
    (message : RealtimeMsg) : Bool × List RealtimeMsg :=
  if readyState = ChannelState.opened then
    if sendOk then (true, [message]) else (false, [])
  else
    (false, [])

/-- JS `String.prototype.substring(0, n)`. -/
def jsSubstring (s : String) (n : ℕ) : String :=
  String.mk (s.data.take n)

/-- The truncation marker appended by `updateSession` when instructions
exceed the maximum length. -/
def truncationMarker : String := "... [truncated]"

/-- `maxLength` in `updateSession`. -/
def sessionInstructionsMaxLength : ℕ := 10000

/-- The default instructions passed by `setContext` of
`useRealtimeVoice`. -/
def defaultInstructions : String :=
  "You are a helpful voice assistant. Answer questions based on the provided document context."

/-- The RAG instruction template wrapped around the context in
`updateSession` (the `fullInstructions` template literal). -/
def ragInstructionsTemplate (instructions context : String) : String :=
  "\nYou are a helpful voice assistant with access to specific document content. \nYour primary responsibility is to answer questions based on the provided document.\n\nWhen answering questions:\n1. Prioritize information from the document content\n2. Cite specific parts of the document when relevant\n3. If the question can't be answered from the document, clearly state that and provide a general response\n4. Keep responses concise and focused on the question\n\n"
    ++ instructions
    ++ "\n\nDOCUMENT CONTENT:\n"
    ++ context
    ++ "\n\nRemember to focus your answers on the document content above.\n"

/-- `fullInstructions` in `updateSession`: the RAG template is used only
when `context` is truthy (present and non-empty). -/
def buildFullInstructions (instructions : String) (context : Option String) :
    String :=
  match context with
  | some c => if c = "" then instructions else ragInstructionsTemplate instructions c
  | none => instructions

/-- `truncatedInstructions` in `updateSession`:
`fullInstructions.length > maxLength ? substring(0, maxLength) + marker : fullInstructions`. -/
def truncateInstructions (full : String) : String :=
  if full.length > sessionInstructionsMaxLength then
    jsSubstring full sessionInstructionsMaxLength ++ truncationMarker
  else
    full

/-- The `turn_detection` value chosen by `updateSession`: `null` for
push-to-talk, a server-VAD descriptor otherwise. -/
def turnDetectionFor (isPushToTalk : Bool) : Option TurnDetection :=
  if isPushToTalk then none
  else some
    { threshold := 1/2
      padBeforeMs := 300
      silenceDurationMs := 200
      createResponse := true }

/-- The `sessionUpdateEvent` object literal in `updateSession`. -/
def sessionConfigFor (instructions : String) (isPushToTalk : Bool) :
    SessionConfig :=
  { modalities := ["text", "audio"]
    instructions := instructions
    voice := "alloy"
    responseFormat := "text_and_audio"
    inputAudioFormat := "pcm16"
    outputAudioFormat := "pcm16"
    audioSampleRate := 24000
    audioBitDepth := 16
    transcriptionModel := "whisper-1"
    turnDetection := turnDetectionFor isPushToTalk }

/-- `updateSession` of `lib/realtimeConnection.ts`: sends an
`input_audio_buffer.clear` frame, builds the (possibly truncated)
instructions, and sends one `session.update` frame.  Returns the boolean
result of the final send together with all frames transmitted. -/
def updateSession (readyState : ChannelState) (sendOk : Bool)
    (instructions : String) (isPushToTalk : Bool) (context : Option String) :
    Bool × List RealtimeMsg :=
  let clearRes := sendRealtimeMessage readyState sendOk RealtimeMsg.inputAudioBufferClear
  let full := buildFullInstructions instructions context
  let truncated := truncateInstructions full
  let ev := RealtimeMsg.sessionUpdate (sessionConfigFor truncated isPushToTalk)
  let updRes := sendRealtimeMessage readyState sendOk ev
  (updRes.1, clearRes.2 ++ updRes.2)

/-- The JS string value of a `ChannelState` (used in the error message of
`startRecording`'s data-channel check). -/
def ChannelState.jsName : ChannelState → String
  | ChannelState.connecting => "connecting"
  | ChannelState.opened => "open"
  | ChannelState.closing => "closing"
  | ChannelState.closed => "closed"

/-- `RealtimeVoiceState` of `useRealtimeVoice`.  The optional
`connectionAttempts` field is read as `state.connectionAttempts || 0`
everywhere, so it is modelled as a `ℕ` starting at 0. -/
structure RealtimeVoiceState where
  isConnected : Bool
  isConnecting : Bool
  isVoiceMode : Bool
  isRecording : Bool
  error : Option String
  isManuallyDisconnected : Bool
  connectionAttempts : ℕ
  deriving DecidableEq, Repr

/-- The initial `useState` value of the hook. -/
def initialVoiceState : RealtimeVoiceState :=
  { isConnected := false
    isConnecting := false
    isVoiceMode := false
    isRecording := false
    error := none
    isManuallyDisconnected := false
    connectionAttempts := 0 }

/-- The hook's mutable refs.  Local media-capture tracks are identified by
indices into an append-only track table (see `VoiceSession.tracks`):
`pcSenders` holds the track ids attached as senders on
`peerConnectionRef.current` (`none` when the ref is null), `mediaStream`
the track ids of `mediaStreamRef.current`, and `dataChannel` the ready
state of `dataChannelRef.current`. -/
structure TransportRefs where
  pcSenders : Option (List ℕ)
  mediaStream : Option (List ℕ)
  dataChannel : Option ChannelState
  deriving DecidableEq, Repr

/-- All refs null, as on mount. -/
def TransportRefs.empty : TransportRefs :=
  { pcSenders := none, mediaStream := none, dataChannel := none }

/-- `track.stop()` applied to each listed track id. -/
def stopTracks (ids : List ℕ) (tracks : List Bool) : List Bool :=
  ids.foldl (fun acc i => acc.set i false) tracks

/-- Whether the capture track with id `i` is still live. -/
def trackLive (tracks : List Bool) (i : ℕ) : Bool :=
  tracks.getD i false

/-- One session of the hook: React state, refs, the stored document
context, the table of every capture track ever acquired (`true` = live),
and whether an asynchronous `connect()` invocation is in flight past its
re-entrancy guard. -/
structure VoiceSession where
  state : RealtimeVoiceState
  refs : TransportRefs
  documentContext : Option String
  tracks : List Bool
  pendingConnect : Bool
  deriving DecidableEq, Repr

/-- Session as it is on mount. -/
def initSession : VoiceSession :=
  { state := initialVoiceState
    refs := TransportRefs.empty
    documentContext := none
    tracks := []
    pendingConnect := false }

/-- Observable side effects of one event: registered callbacks, frames
transmitted on the data channel, and timer schedulings. -/
inductive Action
  | onStatusChange (connected : Bool)
  | onError (message : String)
  | sendFrame (frame : RealtimeMsg)
  | scheduleReconnect (delayMs : ℚ) (forced : Bool)
  | scheduleForcedReconnect (delayMs : ℚ)
  | scheduleConnectCall (delayMs : ℚ)
  deriving DecidableEq, Repr

/-- `cleanupConnections`: stops every track held by a sender of the peer
connection, closes and nulls the peer connection, stops and nulls the
media stream.  The data-channel ref is left untouched (the source does
not clear it). -/
def cleanupConnections (refs : TransportRefs) (tracks : List Bool) :
    TransportRefs × List Bool :=
  let t1 := match refs.pcSenders with
    | some ids => stopTracks ids tracks
    | none => tracks
  let t2 := match refs.mediaStream with
    | some ids => stopTracks ids t1
    | none => t1
  ({ pcSenders := none, mediaStream := none, dataChannel := refs.dataChannel }, t2)

/-- `cleanupConnections` applied to a whole session. -/
def VoiceSession.cleanup (v : VoiceSession) : VoiceSession :=
  let r := cleanupConnections v.refs v.tracks
  { v with refs := r.1, tracks := r.2 }

/-- `maxAttempts` in `attemptReconnect`. -/
def maxReconnectAttempts : ℕ := 5

/-- `attemptReconnect(forceReconnect)` of `useRealtimeVoice`: skips when
already connecting or manually disconnected (unless forced), skips when
the page is hidden (unless forced), raises the terminal error once the
attempt counter has reached the maximum, and otherwise schedules a new
attempt after `min(baseDelay * 1.5^attempts, 30000)` ms, where
`baseDelay` is 500 for forced reconnects (which also reset the exponent
to 0 and the stored counter to 1) and 1000 otherwise. -/
def attemptReconnect (forceReconnect : Bool) (isPageVisible : Bool)
    (v : VoiceSession) : VoiceSession × List Action :=
  if (v.state.isConnecting = true ∨ v.state.isManuallyDisconnected = true) ∧
      forceReconnect = false then
    (v, [])
  else if isPageVisible = false ∧ forceReconnect = false then
    (v, [])
  else
    let currentAttempts := v.state.connectionAttempts
    if maxReconnectAttempts ≤ currentAttempts ∧ forceReconnect = false then
      ({ v with state :=
          { v.state with
            connectionAttempts := 0
            error := some "Failed to reconnect after multiple attempts" } }, [])
    else
      let attemptsToUse := if forceReconnect then 0 else currentAttempts
      let baseDelay : ℚ := if forceReconnect then 500 else 1000
      let delay : ℚ := min (baseDelay * (3/2 : ℚ) ^ attemptsToUse) 30000
      let v1 := { v with state := { v.state with
        connectionAttempts := if forceReconnect then 1 else currentAttempts + 1 } }
      let v2 := if forceReconnect then v1.cleanup else v1
      (v2, [Action.scheduleReconnect delay forceReconnect])

/-- `connect()` up to its first suspension point: the re-entrancy guard,
`cleanupConnections`, and marking `isConnecting` (with
`isManuallyDisconnected` cleared and `onStatusChange(false)` emitted). -/
def connectStartImpl (v : VoiceSession) : VoiceSession × List Action :=
  if v.state.isConnecting = true ∨ v.state.isConnected = true then
    (v, [])
  else
    let v1 := v.cleanup
    let st :=
      { v1.state with
        isConnecting := true
        isManuallyDisconnected := false
        error := none }
    ({ v1 with state := st, pendingConnect := true },
     [Action.onStatusChange false])

/-- `connect()` resuming after `fetchEphemeralKey` failed (e.g. the
credential endpoint answered non-OK): the fetcher's catch invokes
`onError` with the endpoint's error message and returns null, `connect`
throws `Failed to get ephemeral key`, and its catch clears the flags,
invokes `onError` again and calls `attemptReconnect()` when not manually
disconnected. -/
def connectFetchFailImpl (errMsg : String) (isPageVisible : Bool)
    (v : VoiceSession) : VoiceSession × List Action :=
  if v.pendingConnect = false then
    (v, [])
  else
    let st :=
      { v.state with
        isConnecting := false
        isConnected := false
        error := some "Failed to get ephemeral key" }
    let v1 := { v with state := st, pendingConnect := false }
    if v1.state.isManuallyDisconnected = false then
      let r := attemptReconnect false isPageVisible v1
      (r.1, Action.onError errMsg ::
            Action.onError "Failed to get ephemeral key" :: r.2)
    else
      (v1, [Action.onError errMsg,
            Action.onError "Failed to get ephemeral key"])

/-- `connect()` resuming after `createRealtimeConnection` threw.  When the
failure happened past the microphone acquisition (`micAcquired`), the
permission-probe track (already stopped) and the live microphone track
were acquired, but the local peer connection is never stored in the ref,
so the live track leaks.  `connect`'s catch clears the flags, invokes
`onError` and calls `attemptReconnect()` when not manually
disconnected. -/
def connectEstablishFailImpl (errMsg : String) (micAcquired : Bool)
    (isPageVisible : Bool) (v : VoiceSession) : VoiceSession × List Action :=
  if v.pendingConnect = false then
    (v, [])
  else
    let tracks' := if micAcquired then v.tracks ++ [false, true] else v.tracks
    let st :=
      { v.state with
        isConnecting := false
        isConnected := false
        error := some errMsg }
    let v1 := { v with state := st, tracks := tracks', pendingConnect := false }
    if v1.state.isManuallyDisconnected = false then
      let r := attemptReconnect false isPageVisible v1
      (r.1, Action.onError errMsg :: r.2)
    else
      (v1, [Action.onError errMsg])

/-- `connect()` resuming after `createRealtimeConnection` succeeded:
the permission-probe track was acquired and stopped, the microphone
track was acquired and attached as a sender of the new peer connection,
the refs are stored, and the state is marked connected
(`onStatusChange(true)`).  No data-channel frame is sent on this path. -/
def connectSuccessImpl (dcState : ChannelState) (v : VoiceSession) :
    VoiceSession × List Action :=
  if v.pendingConnect = false then
    (v, [])
  else
    let micId := v.tracks.length + 1
    let tracks' := v.tracks ++ [false, true]
    let refs' : TransportRefs :=
      { pcSenders := some [micId]
        mediaStream := v.refs.mediaStream
        dataChannel := some dcState }
    let st := { v.state with isConnecting := false, isConnected := true }
    ({ v with
        state := st
        refs := refs'
        tracks := tracks'
        pendingConnect := false },
     [Action.onStatusChange true])

/-- `disconnect()`: sets `isManuallyDisconnected` and clears the two
connection flags (`isRecording` is not touched), runs
`cleanupConnections`, and emits `onStatusChange(false)`. -/
def disconnectImpl (v : VoiceSession) : VoiceSession × List Action :=
  let st :=
    { v.state with
      isManuallyDisconnected := true
      isConnected := false
      isConnecting := false }
  (VoiceSession.cleanup { v with state := st }, [Action.onStatusChange false])

/-- `stopRecording()`: no-op unless recording; stops and nulls the media
stream, clears `isRecording`, and (when the data-channel ref is set)
hands an `input_audio_buffer.commit` and a `response.create` frame to
`sendRealtimeMessage`, which silently drops them when the channel is not
open. -/
def stopRecordingImpl (sendOk : Bool) (v : VoiceSession) :
    VoiceSession × List Action :=
  if v.state.isRecording = false then
    (v, [])
  else
    let tracks' := match v.refs.mediaStream with
      | some ids => stopTracks ids v.tracks
      | none => v.tracks
    let st := { v.state with isRecording := false }
    let frames := match v.refs.dataChannel with
      | some ch =>
          (sendRealtimeMessage ch sendOk RealtimeMsg.inputAudioBufferCommit).2 ++
          (sendRealtimeMessage ch sendOk RealtimeMsg.responseCreate).2
      | none => []
    ({ v with
        state := st
        refs := { v.refs with mediaStream := none }
        tracks := tracks' },
     frames.map Action.sendFrame)

/-- `toggleVoiceMode()`: flips `isVoiceMode`; when voice mode was on and
recording is active, additionally runs `stopRecording()` (after the
flip). -/
def toggleVoiceModeImpl (sendOk : Bool) (v : VoiceSession) :
    VoiceSession × List Action :=
  let v1 := { v with state := { v.state with
    isVoiceMode := !v.state.isVoiceMode } }
  if v.state.isVoiceMode = true ∧ v.state.isRecording = true then
    stopRecordingImpl sendOk v1
  else
    (v1, [])

/-- `startRecording()` with the microphone granted: guards (`onError`
when not connected, no-op when already recording), stores the fresh
stream, marks `isRecording`; then the data-channel check either passes
(channel open: an `input_audio_buffer.clear` frame is sent and the track
is added to the peer connection only when it has no audio sender) or
throws (channel null or not open: the catch clears `isRecording`, emits
`onError` and stops the partial stream). -/
def startRecordingOkImpl (sendOk : Bool) (v : VoiceSession) :
    VoiceSession × List Action :=
  if v.state.isConnected = false then
    (v, [Action.onError "Cannot start recording: not connected"])
  else if v.state.isRecording = true then
    (v, [])
  else
    let micId := v.tracks.length
    let tracksAcq := v.tracks ++ [true]
    let refsAcq := { v.refs with mediaStream := some [micId] }
    let stRec := { v.state with isRecording := true, error := none }
    match v.refs.dataChannel with
    | some ChannelState.opened =>
        let clearFrames := (sendRealtimeMessage ChannelState.opened sendOk
          RealtimeMsg.inputAudioBufferClear).2
        let refsFinal := match refsAcq.pcSenders with
          | some [] => { refsAcq with pcSenders := some [micId] }
          | _ => refsAcq
        ({ v with state := stRec, refs := refsFinal, tracks := tracksAcq },
         clearFrames.map Action.sendFrame)
    | ch =>
        let errMsg := match ch with
          | none => "Microphone error: Error - Data channel is not available"
          | some c =>
              "Microphone error: Error - Data channel is not open, current state: "
                ++ c.jsName
        let stErr := { stRec with isRecording := false, error := some errMsg }
        ({ v with
            state := stErr
            refs := { refsAcq with mediaStream := none }
            tracks := stopTracks [micId] tracksAcq },
         [Action.onError errMsg])

/-- `startRecording()` with `getUserMedia` rejecting: the catch stores a
human-readable error, clears `isRecording` and emits `onError`; no track
was acquired and the media-stream ref was never set. -/
def startRecordingMicFailImpl (errMsg : String) (v : VoiceSession) :
    VoiceSession × List Action :=
  if v.state.isConnected = false then
    (v, [Action.onError "Cannot start recording: not connected"])
  else if v.state.isRecording = true then
    (v, [])
  else
    ({ v with state :=
        { v.state with
          isRecording := false
          error := some errMsg } },
     [Action.onError errMsg])

/-- The `oniceconnectionstatechange` handler on an ICE transition to
`disconnected`/`failed`/`closed`: when not manually disconnected, clears
`isConnected`, emits `onStatusChange(false)` and calls
`attemptReconnect()`. -/
def iceLostImpl (isPageVisible : Bool) (v : VoiceSession) :
    VoiceSession × List Action :=
  if v.state.isManuallyDisconnected = true then
    (v, [])
  else
    let v1 := { v with state := { v.state with isConnected := false } }
    let r := attemptReconnect false isPageVisible v1
    (r.1, Action.onStatusChange false :: r.2)

/-- The `onconnectionstatechange` handler on the `failed` state: when not
manually disconnected, clears `isConnected`, emits
`onStatusChange(false)` and schedules `attemptReconnect(true)` after
500 ms. -/
def connectionFailedImpl (v : VoiceSession) : VoiceSession × List Action :=
  if v.state.isManuallyDisconnected = true then
    (v, [])
  else
    ({ v with state := { v.state with isConnected := false } },
     [Action.onStatusChange false, Action.scheduleForcedReconnect 500])

/-- The body of the `setTimeout` scheduled in `attemptReconnect` firing:
when idle and not manually disconnected (or forced), cleans up, resets
the connection flags and error, and schedules the `connect()` call after
a further 100 ms. -/
def reconnectTimerFireImpl (forced : Bool) (v : VoiceSession) :
    VoiceSession × List Action :=
  if (v.state.isConnected = false ∧ v.state.isConnecting = false ∧
      v.state.isManuallyDisconnected = false) ∨ forced = true then
    let v1 := v.cleanup
    let st :=
      { v1.state with
        isConnected := false
        isConnecting := false
        error := none }
    ({ v1 with state := st }, [Action.scheduleConnectCall 100])
  else
    (v, [])

/-- `setContext(context)`: stores the context; when connected and the
data-channel ref is set, immediately calls
`updateSession(dataChannel, defaultInstructions, !isVoiceMode, context)`. -/
def setContextImpl (text : String) (sendOk : Bool) (v : VoiceSession) :
    VoiceSession × List Action :=
  let v1 := { v with documentContext := some text }
  if v1.state.isConnected = true then
    match v1.refs.dataChannel with
    | some ch =>
        let frames := (updateSession ch sendOk defaultInstructions
          (!v1.state.isVoiceMode) (some text)).2
        (v1, frames.map Action.sendFrame)
    | none => (v1, [])
  else
    (v1, [])

/-- A spontaneous `readyState` transition of the stored data channel
(e.g. the channel closing when the transport degrades).  No hook code
runs on this event. -/
def channelStateChangeImpl (newState : ChannelState) (v : VoiceSession) :
    VoiceSession × List Action :=
  match v.refs.dataChannel with
  | some _ => ({ v with refs := { v.refs with dataChannel := some newState } }, [])
  | none => (v, [])

/-- The events of the session transition system: each command of the hook,
each resumption of an asynchronous `connect()`, each transport handler,
and each timer firing.  Boolean parameters are environment choices
(network outcomes, page visibility, whether a channel send succeeds). -/
inductive VoiceEvent
  | connectStart
  | connectFetchFail (errMsg : String) (isPageVisible : Bool)
  | connectEstablishFail (errMsg : String) (micAcquired : Bool) (isPageVisible : Bool)
  | connectSuccess (dcState : ChannelState)
  | disconnectCall
  | toggleVoiceModeCall (sendOk : Bool)
  | startRecordingOk (sendOk : Bool)
  | startRecordingMicFail (errMsg : String)
  | stopRecordingCall (sendOk : Bool)
  | iceLost (isPageVisible : Bool)
  | connectionFailed
  | forcedReconnectFire (isPageVisible : Bool)
  | reconnectTimerFire (forced : Bool)
  | setContextCall (text : String) (sendOk : Bool)
  | channelStateChange (newState : ChannelState)
  deriving DecidableEq, Repr

/-- One step of the session transition system. -/
def stepEv (v : VoiceSession) : VoiceEvent → VoiceSession × List Action
  | VoiceEvent.connectStart => connectStartImpl v
  | VoiceEvent.connectFetchFail msg pv => connectFetchFailImpl msg pv v
  | VoiceEvent.connectEstablishFail msg mic pv =>
      connectEstablishFailImpl msg mic pv v
  | VoiceEvent.connectSuccess dc => connectSuccessImpl dc v
  | VoiceEvent.disconnectCall => disconnectImpl v
  | VoiceEvent.toggleVoiceModeCall ok => toggleVoiceModeImpl ok v
  | VoiceEvent.startRecordingOk ok => startRecordingOkImpl ok v
  | VoiceEvent.startRecordingMicFail msg => startRecordingMicFailImpl msg v
  | VoiceEvent.stopRecordingCall ok => stopRecordingImpl ok v
  | VoiceEvent.iceLost pv => iceLostImpl pv v
  | VoiceEvent.connectionFailed => connectionFailedImpl v
  | VoiceEvent.forcedReconnectFire pv => attemptReconnect true pv v
  | VoiceEvent.reconnectTimerFire forced => reconnectTimerFireImpl forced v
  | VoiceEvent.setContextCall text ok => setContextImpl text ok v
  | VoiceEvent.channelStateChange st => channelStateChangeImpl st v

/-- Run a list of events, collecting every emitted action. -/
def runEvents (v : VoiceSession) : List VoiceEvent → VoiceSession × List Action
  | [] => (v, [])
  | e :: es =>
      let r := stepEv v e
      let rest := runEvents r.1 es
      (rest.1, r.2 ++ rest.2)

/-- States reachable from the freshly mounted session by any event
sequence. -/
inductive Reachable : VoiceSession → Prop
  | init : Reachable initSession
  | step (v : VoiceSession) (e : VoiceEvent) :
      Reachable v → Reachable (stepEv v e).1

/-! ### Transcript accumulation of the socket route
(`app/api/realtime/socket/route.ts`, `response.done` handler). -/

/-- One entry of an output item's `content` array; only the `transcript`
field is inspected by the handler (`undefined` modelled as `none`). -/
structure ContentEntry where
  transcript : Option String
  deriving DecidableEq, Repr

/-- One entry of `response.response.output`. -/
structure OutputItem where
  content : Option (List ContentEntry)
  deriving DecidableEq, Repr

/-- The `response.response` object of a `response.done` event. -/
structure DoneResponse where
  output : List OutputItem
  deriving DecidableEq, Repr

/-- `response.response.output[0]?.content?.find(c => c.transcript)?.transcript || ''`:
only the FIRST output item is examined, and a content entry counts only
when its transcript is truthy (present and non-empty). -/
def agentMessageOf (r : DoneResponse) : String :=
  match r.output.head? with
  | none => ""
  | some item =>
      match item.content with
      | none => ""
      | some cs =>
          match cs.find? (fun c => c.transcript.getD "" != "") with
          | none => ""
          | some c => c.transcript.getD ""

/-- The `response.done` branch of the socket route's message handler:
appends `Agent: <message>\n` to the session transcript when the agent
message is truthy, leaves the transcript unchanged otherwise. -/
def processResponseDone (transcriptLog : String) (r : DoneResponse) : String :=
  let agentMessage := agentMessageOf r
  if agentMessage ≠ "" then
    transcriptLog ++ "Agent: " ++ agentMessage ++ "\n"
  else
    transcriptLog

/-- Following the spec's words (not the code): the response output
contains an item with a content entry carrying a (non-empty)
transcript.  Used to compare the claimed trigger with the code's
first-item-only behaviour. -/
def specOutputCarriesTranscript (r : DoneResponse) : Bool :=
  r.output.any fun item =>
    (item.content.getD []).any fun c => c.transcript.getD "" != ""

/-! ### Helper observations on emitted actions and tracks -/

/-- Track ids currently referenced by the transport refs (peer-connection
senders and the recording media stream). -/
def refTrackIds (refs : TransportRefs) : List ℕ :=
  refs.pcSenders.getD [] ++ refs.mediaStream.getD []

/-- Number of `onError` callback invocations in an action list. -/
def onErrorCount (acts : List Action) : ℕ :=
  (acts.filter fun a => match a with
    | Action.onError _ => true
    | _ => false).length

/-- Number of reconnect schedulings in an action list. -/
def reconnectScheduledCount (acts : List Action) : ℕ :=
  (acts.filter fun a => match a with
    | Action.scheduleReconnect _ _ => true
    | _ => false).length

/-- Number of `session.update` frames transmitted in an action list. -/
def sessionUpdateCount (acts : List Action) : ℕ :=
  (acts.filter fun a => match a with
    | Action.sendFrame (RealtimeMsg.sessionUpdate _) => true
    | _ => false).length

/-- Number of frames of any kind transmitted in an action list. -/
def sendFrameCount (acts : List Action) : ℕ :=
  (acts.filter fun a => match a with
    | Action.sendFrame _ => true
    | _ => false).length

/-! ### Lemmas about track bookkeeping -/

theorem cleanup_state (v : VoiceSession) : v.cleanup.state = v.state := rfl

theorem cleanup_documentContext (v : VoiceSession) :
    v.cleanup.documentContext = v.documentContext := rfl

theorem trackLive_set_false (ts : List Bool) (j i : ℕ)
    (h : trackLive ts i = false ∨ i = j) :
    trackLive (ts.set j false) i = false := by
  unfold trackLive at *
  rw [List.getD_eq_getElem?_getD, List.getElem?_set]
  rcases h with h | h
  · split
    · split <;> simp
    · rw [← List.getD_eq_getElem?_getD]
      exact h
  · subst h
    rw [if_pos rfl]
    split <;> simp

theorem stopTracks_cons (a : ℕ) (rest : List ℕ) (ts : List Bool) :
    stopTracks (a :: rest) ts = stopTracks rest (ts.set a false) := rfl

theorem trackLive_stopTracks_false (ids : List ℕ) (ts : List Bool) (i : ℕ)
    (h : trackLive ts i = false) :
    trackLive (stopTracks ids ts) i = false := by
  induction ids generalizing ts with
  | nil => simpa [stopTracks] using h
  | cons a rest ih =>
      rw [stopTracks_cons]
      exact ih _ (trackLive_set_false ts a i (Or.inl h))

theorem trackLive_stopTracks_of_mem (ids : List ℕ) (ts : List Bool) (i : ℕ)
    (h : i ∈ ids) :
    trackLive (stopTracks ids ts) i = false := by
  induction ids generalizing ts with
  | nil => cases h
  | cons a rest ih =>
      rw [stopTracks_cons]
      rcases List.mem_cons.mp h with h | h
      · subst h
        exact trackLive_stopTracks_false rest _ i
          (trackLive_set_false ts i i (Or.inr rfl))
      · exact ih _ h

theorem trackLive_cleanup (refs : TransportRefs) (tracks : List Bool) (i : ℕ)
    (h : i ∈ refTrackIds refs) :
    trackLive (cleanupConnections refs tracks).2 i = false := by
  unfold refTrackIds at h
  unfold cleanupConnections
  rcases List.mem_append.mp h with h | h
  · cases hp : refs.pcSenders with
    | none => rw [hp] at h; cases h
    | some ids =>
        rw [hp] at h
        simp only [hp]
        have h1 : trackLive (stopTracks ids tracks) i = false :=
          trackLive_stopTracks_of_mem ids tracks i (by simpa using h)
        cases hm : refs.mediaStream with
        | none => simpa using h1
        | some ms => simpa using trackLive_stopTracks_false ms _ i h1
  · cases hm : refs.mediaStream with
    | none => rw [hm] at h; cases h
    | some ms =>
        rw [hm] at h
        simp only [hm]
        cases hp : refs.pcSenders with
        | none => simpa using trackLive_stopTracks_of_mem ms tracks i (by simpa using h)
        | some ids =>
            simpa using trackLive_stopTracks_of_mem ms _ i (by simpa using h)

/-! ### Structural lemmas about `attemptReconnect` -/

theorem attemptReconnect_flags (f pv : Bool) (v : VoiceSession) :
    (attemptReconnect f pv v).1.state.isConnecting = v.state.isConnecting ∧
    (attemptReconnect f pv v).1.state.isConnected = v.state.isConnected ∧
    (attemptReconnect f pv v).1.state.isRecording = v.state.isRecording ∧
    (attemptReconnect f pv v).1.state.isManuallyDisconnected
      = v.state.isManuallyDisconnected := by
  unfold attemptReconnect
  dsimp only
  split_ifs <;> simp [VoiceSession.cleanup]

theorem attemptReconnect_attempts_le (f pv : Bool) (v : VoiceSession)
    (h : v.state.connectionAttempts ≤ 5) :
    (attemptReconnect f pv v).1.state.connectionAttempts ≤ 5 := by
  unfold attemptReconnect maxReconnectAttempts
  dsimp only
  split_ifs <;> simp_all [VoiceSession.cleanup] <;> omega

theorem stopRecordingImpl_flags (ok : Bool) (v : VoiceSession) :
    (stopRecordingImpl ok v).1.state.isConnecting = v.state.isConnecting ∧
    (stopRecordingImpl ok v).1.state.isConnected = v.state.isConnected ∧
    (stopRecordingImpl ok v).1.state.isManuallyDisconnected
      = v.state.isManuallyDisconnected ∧
    (stopRecordingImpl ok v).1.state.connectionAttempts
      = v.state.connectionAttempts := by
  unfold stopRecordingImpl
  dsimp only
  split_ifs <;> simp

/-- `connecting` and `connected` are not both set. -/
def MutexOK (v : VoiceSession) : Prop :=
  v.state.isConnecting = false ∨ v.state.isConnected = false

theorem stepEv_mutex (v : VoiceSession) (e : VoiceEvent) (h : MutexOK v) :
    MutexOK (stepEv v e).1 := by
  unfold MutexOK at *
  cases e with
  | connectStart =>
      unfold stepEv connectStartImpl
      dsimp only
      split_ifs with hg
      · exact h
      · right
        push_neg at hg
        simp only [Bool.not_eq_true] at hg
        simpa [VoiceSession.cleanup] using hg.2
  | connectFetchFail msg pv =>
      unfold stepEv connectFetchFailImpl
      dsimp only
      split_ifs
      all_goals first
        | exact h
        | (left; dsimp only; rw [(attemptReconnect_flags false pv _).1])
        | (left; rfl)
  | connectEstablishFail msg mic pv =>
      unfold stepEv connectEstablishFailImpl
      dsimp only
      split_ifs
      all_goals first
        | exact h
        | (left; dsimp only; rw [(attemptReconnect_flags false pv _).1])
        | (left; rfl)
  | connectSuccess dc =>
      unfold stepEv connectSuccessImpl
      dsimp only
      split_ifs
      · exact h
      · left; simp
  | disconnectCall =>
      left
      simp [stepEv, disconnectImpl, VoiceSession.cleanup]
  | toggleVoiceModeCall ok =>
      unfold stepEv toggleVoiceModeImpl
      dsimp only
      split_ifs
      · have := stopRecordingImpl_flags ok
          { v with state := { v.state with isVoiceMode := !v.state.isVoiceMode } }
        rcases h with h | h
        · left; rw [this.1]; simpa using h
        · right; rw [this.2.1]; simpa using h
      · exact h
  | startRecordingOk ok =>
      unfold stepEv startRecordingOkImpl
      dsimp only
      split_ifs
      · exact h
      · exact h
      · rcases hdc : v.refs.dataChannel with _ | ch
        · simp only [hdc]
          rcases h with h | h
          · left; simpa using h
          · right; simpa using h
        · cases ch <;> simp only [hdc] <;>
            (rcases h with h | h
             · left; simpa using h
             · right; simpa using h)
  | startRecordingMicFail msg =>
      unfold stepEv startRecordingMicFailImpl
      dsimp only
      split_ifs
      · exact h
      · exact h
      · rcases h with h | h
        · left; simpa using h
        · right; simpa using h
  | stopRecordingCall ok =>
      have := stopRecordingImpl_flags ok v
      rcases h with h | h
      · left; rw [show (stepEv v (VoiceEvent.stopRecordingCall ok)).1
          = (stopRecordingImpl ok v).1 from rfl, this.1]; exact h
      · right; rw [show (stepEv v (VoiceEvent.stopRecordingCall ok)).1
          = (stopRecordingImpl ok v).1 from rfl, this.2.1]; exact h
  | iceLost pv =>
      unfold stepEv iceLostImpl
      dsimp only
      split_ifs
      · exact h
      · right
        dsimp only
        rw [(attemptReconnect_flags false pv _).2.1]
  | connectionFailed =>
      unfold stepEv connectionFailedImpl
      dsimp only
      split_ifs
      · exact h
      · right; simp
  | forcedReconnectFire pv =>
      have h1 := (attemptReconnect_flags true pv v).1
      have h2 := (attemptReconnect_flags true pv v).2.1
      rcases h with h | h
      · left; rw [show (stepEv v (VoiceEvent.forcedReconnectFire pv)).1
          = (attemptReconnect true pv v).1 from rfl, h1]; exact h
      · right; rw [show (stepEv v (VoiceEvent.forcedReconnectFire pv)).1
          = (attemptReconnect true pv v).1 from rfl, h2]; exact h
  | reconnectTimerFire forced =>
      unfold stepEv reconnectTimerFireImpl
      dsimp only
      split_ifs
      · left; simp [VoiceSession.cleanup]
      · exact h
  | setContextCall text ok =>
      unfold stepEv setContextImpl
      dsimp only
      split_ifs
      · rcases hdc : v.refs.dataChannel with _ | ch <;> simp only [hdc] <;> exact h
      · exact h
  | channelStateChange st =>
      unfold stepEv channelStateChangeImpl
      rcases hdc : v.refs.dataChannel with _ | ch <;> simp only [hdc] <;> exact h

theorem stepEv_attempts_le (v : VoiceSession) (e : VoiceEvent)
    (h : v.state.connectionAttempts ≤ 5) :
    (stepEv v e).1.state.connectionAttempts ≤ 5 := by
  cases e with
  | connectStart =>
      unfold stepEv connectStartImpl
      dsimp only
      split_ifs
      · exact h
      · simpa [VoiceSession.cleanup] using h
  | connectFetchFail msg pv =>
      unfold stepEv connectFetchFailImpl
      dsimp only
      split_ifs
      all_goals first
        | exact h
        | (dsimp only; apply attemptReconnect_attempts_le; simpa using h)
        | simpa using h
  | connectEstablishFail msg mic pv =>
      unfold stepEv connectEstablishFailImpl
      dsimp only
      split_ifs
      all_goals first
        | exact h
        | (dsimp only; apply attemptReconnect_attempts_le; simpa using h)
        | simpa using h
  | connectSuccess dc =>
      unfold stepEv connectSuccessImpl
      dsimp only
      split_ifs
      · exact h
      · simpa using h
  | disconnectCall =>
      simpa [stepEv, disconnectImpl, VoiceSession.cleanup] using h
  | toggleVoiceModeCall ok =>
      unfold stepEv toggleVoiceModeImpl
      dsimp only
      split_ifs
      · rw [(stopRecordingImpl_flags ok _).2.2.2]
        simpa using h
      · simpa using h
  | startRecordingOk ok =>
      unfold stepEv startRecordingOkImpl
      dsimp only
      split_ifs
      · exact h
      · exact h
      · rcases hdc : v.refs.dataChannel with _ | ch
        · simpa [hdc] using h
        · cases ch <;> simpa [hdc] using h
  | startRecordingMicFail msg =>
      unfold stepEv startRecordingMicFailImpl
      dsimp only
      split_ifs
      · exact h
      · exact h
      · simpa using h
  | stopRecordingCall ok =>
      rw [show (stepEv v (VoiceEvent.stopRecordingCall ok)).1
        = (stopRecordingImpl ok v).1 from rfl, (stopRecordingImpl_flags ok v).2.2.2]
      exact h
  | iceLost pv =>
      unfold stepEv iceLostImpl
      dsimp only
      split_ifs
      · exact h
      · apply attemptReconnect_attempts_le
        simpa using h
  | connectionFailed =>
      unfold stepEv connectionFailedImpl
      dsimp only
      split_ifs
      · exact h
      · simpa using h
  | forcedReconnectFire pv =>
      exact attemptReconnect_attempts_le true pv v h
  | reconnectTimerFire forced =>
      unfold stepEv reconnectTimerFireImpl
      dsimp only
      split_ifs
      · simpa [VoiceSession.cleanup] using h
      · exact h
  | setContextCall text ok =>
      unfold stepEv setContextImpl
      dsimp only
      split_ifs
      · rcases hdc : v.refs.dataChannel with _ | ch <;> simpa [hdc] using h
      · exact h
  | channelStateChange st =>
      unfold stepEv channelStateChangeImpl
      rcases hdc : v.refs.dataChannel with _ | ch <;> simpa [hdc] using h

theorem reachable_mutex (v : VoiceSession) (h : Reachable v) : MutexOK v := by
  induction h with
  | init => left; rfl
  | step w e _ ih => exact stepEv_mutex w e ih

theorem reachable_attempts_le (v : VoiceSession) (h : Reachable v) :
    v.state.connectionAttempts ≤ 5 := by
  induction h with
  | init => simp [initSession, initialVoiceState]
  | step w e _ ih => exact stepEv_attempts_le w e ih

theorem reachable_runEvents (es : List VoiceEvent) (v : VoiceSession)
    (h : Reachable v) : Reachable (runEvents v es).1 := by
  induction es generalizing v with
  | nil => simpa [runEvents] using h
  | cons e rest ih =>
      show Reachable (runEvents (stepEv v e).1 rest).1
      exact ih _ (Reachable.step v e h)

/-! ### Concrete reachable sessions used in witnesses and counterexamples -/

/-- A `connect()` call succeeding with an open data channel. -/
def connectedSession : VoiceSession :=
  (runEvents initSession
    [VoiceEvent.connectStart, VoiceEvent.connectSuccess ChannelState.opened]).1

/-- Connected, then recording started by `startRecording()` (voice mode
was never toggled on). -/
def recordingSession : VoiceSession :=
  (runEvents initSession
    [VoiceEvent.connectStart, VoiceEvent.connectSuccess ChannelState.opened,
     VoiceEvent.startRecordingOk true]).1

/-- Recording, but the data channel has since left the `open` state. -/
def closedChannelRecordingSession : VoiceSession :=
  (runEvents initSession
    [VoiceEvent.connectStart, VoiceEvent.connectSuccess ChannelState.opened,
     VoiceEvent.startRecordingOk true,
     VoiceEvent.channelStateChange ChannelState.closed]).1

theorem connectedSession_reachable : Reachable connectedSession :=
  reachable_runEvents _ initSession Reachable.init

theorem recordingSession_reachable : Reachable recordingSession :=
  reachable_runEvents _ initSession Reachable.init

/-! ### String lemmas for the truncation behaviour -/

theorem jsSubstring_length (s : String) (n : ℕ) :
    (jsSubstring s n).length = min n s.length := by
  show (s.data.take n).length = min n s.length
  simp

theorem truncationMarker_length : truncationMarker.length = 15 := rfl

theorem truncateInstructions_length_le (full : String) :
    (truncateInstructions full).length
      ≤ sessionInstructionsMaxLength + truncationMarker.length := by
  unfold truncateInstructions
  split_ifs with h
  · rw [String.length_append, jsSubstring_length]
    omega
  · simp only [gt_iff_lt, not_lt] at h
    omega

theorem truncateInstructions_marker_iff (full : String) :
    (truncateInstructions full
        = jsSubstring full sessionInstructionsMaxLength ++ truncationMarker)
      ↔ sessionInstructionsMaxLength < full.length := by
  unfold truncateInstructions
  split_ifs with h
  · simp only [gt_iff_lt] at h
    exact iff_of_true rfl h
  · simp only [gt_iff_lt, not_lt] at h
    refine iff_of_false (fun he => ?_) (not_lt.mpr h)
    have hl := congrArg String.length he
    rw [String.length_append, jsSubstring_length, truncationMarker_length] at hl
    omega

/-! ### Claim theorems -/

/-- Claim C6: a `connect()` call made while the state already has
`connecting = true` or `connected = true` is a complete no-op — the
session (state, refs, context, tracks) is unchanged and no callback,
frame or timer is emitted. -/
theorem connect_noop_when_active (v : VoiceSession)
    (h : v.state.isConnecting = true ∨ v.state.isConnected = true) :
    stepEv v VoiceEvent.connectStart = (v, []) := by
  unfold stepEv connectStartImpl
  dsimp only
  rw [if_pos h]

/-- Witness for `connect_noop_when_active` at a concrete connected
session. -/
theorem connect_noop_when_active_witness :
    stepEv connectedSession VoiceEvent.connectStart = (connectedSession, []) :=
  connect_noop_when_active connectedSession (Or.inr (by decide))

/-- Claim C10 counterexample: with the data channel's `readyState` equal
to `open` but the underlying send throwing, `sendRealtimeMessage`
returns `false` (the exception is caught), contradicting "returns true
exactly when the channel's readyState is 'open'". -/
theorem send_message_false_on_open_channel_exception :
    sendRealtimeMessage ChannelState.opened false RealtimeMsg.responseCreate
      = (false, []) := rfl

/-- Claim C10 (amended): `sendRealtimeMessage` is total and returns
`true` exactly when the channel's readyState is `open` AND the
serialize-and-send succeeds; when the channel is not open it returns
`false` without transmitting anything; consequently `stopRecording`'s
buffer-commit and response-create frames are silently dropped — no frame
is transmitted and no callback (in particular no `onError`) fires — when
the channel is not open, while `isRecording` is still cleared. -/
theorem send_message_amended_spec (readyState : ChannelState) (sendOk : Bool)
    (message : RealtimeMsg) (v : VoiceSession) :
    ((sendRealtimeMessage readyState sendOk message).1 = true ↔
      readyState = ChannelState.opened ∧ sendOk = true) ∧
    (readyState ≠ ChannelState.opened →
      sendRealtimeMessage readyState sendOk message = (false, [])) ∧
    (v.state.isRecording = true → v.refs.dataChannel = some readyState →
      readyState ≠ ChannelState.opened →
      (stepEv v (VoiceEvent.stopRecordingCall sendOk)).2 = [] ∧
      (stepEv v (VoiceEvent.stopRecordingCall sendOk)).1.state.isRecording
        = false) := by
  refine ⟨?_, ?_, ?_⟩
  · unfold sendRealtimeMessage
    split_ifs with h1 h2 <;> simp_all
  · intro h
    unfold sendRealtimeMessage
    rw [if_neg h]
  · intro hrec hdc hne
    have hcond : ¬ v.state.isRecording = false := by simp [hrec]
    constructor
    · show (stopRecordingImpl sendOk v).2 = []
      unfold stopRecordingImpl
      dsimp only
      rw [if_neg hcond, hdc]
      simp [sendRealtimeMessage, hne]
    · show (stopRecordingImpl sendOk v).1.state.isRecording = false
      unfold stopRecordingImpl
      dsimp only
      rw [if_neg hcond]

/-- Witness for `send_message_amended_spec`: a closed channel drops the
commit/response frames of `stopRecording` silently while recording is
cleared. -/
theorem send_message_amended_spec_witness :
    (stepEv closedChannelRecordingSession (VoiceEvent.stopRecordingCall true)).2
      = [] ∧
    (stepEv closedChannelRecordingSession
      (VoiceEvent.stopRecordingCall true)).1.state.isRecording = false :=
  (send_message_amended_spec ChannelState.closed true RealtimeMsg.responseCreate
    closedChannelRecordingSession).2.2 (by decide) (by decide) (by decide)

/-- Claim C9 counterexample: a `response.done` event whose transcript sits
in the SECOND output item (the spec-side trigger
`specOutputCarriesTranscript` holds) leaves the transcript log
unchanged, because the handler reads `output[0]` only. -/
def laterItemResponse : DoneResponse :=
  { output := [{ content := some [] },
               { content := some [{ transcript := some "From the second item" }] }] }

theorem response_done_ignores_later_output_items :
    specOutputCarriesTranscript laterItemResponse = true ∧
    processResponseDone "" laterItemResponse = "" := by
  constructor <;> rfl

/-- Claim C9 (amended): the handler examines only the FIRST output item:
when `output[0]` has a content entry with a non-empty transcript (the
first such entry, as found by `find`), exactly the line
`Agent: <transcript>\n` is appended; when the computed agent message is
empty (in particular when `output[0]` carries no transcript, wherever
later items do), the log is unchanged. -/
theorem response_done_first_item_spec (transcriptLog : String)
    (r : DoneResponse) :
    (∀ item cs c, r.output.head? = some item → item.content = some cs →
      cs.find? (fun e => e.transcript.getD "" != "") = some c →
      processResponseDone transcriptLog r
        = transcriptLog ++ "Agent: " ++ c.transcript.getD "" ++ "\n") ∧
    (agentMessageOf r = "" →
      processResponseDone transcriptLog r = transcriptLog) := by
  constructor
  · intro item cs c hhead hcontent hfind
    have hc := List.find?_some hfind
    have hne : c.transcript.getD "" ≠ "" := by simpa using hc
    unfold processResponseDone agentMessageOf
    rw [hhead]
    dsimp only
    rw [hcontent]
    dsimp only
    rw [hfind]
    dsimp only
    rw [if_pos hne]
  · intro hempty
    unfold processResponseDone
    dsimp only
    rw [if_neg (by simp [hempty])]

/-- Witness for `response_done_first_item_spec` on a concrete response
whose first output item carries a transcript. -/
def firstItemResponse : DoneResponse :=
  { output := [{ content := some [{ transcript := none },
                                  { transcript := some "hello there" }] }] }

theorem response_done_first_item_spec_witness :
    processResponseDone "User: hi\n" firstItemResponse
      = "User: hi\n" ++ "Agent: " ++ "hello there" ++ "\n" :=
  (response_done_first_item_spec "User: hi\n" firstItemResponse).1
    { content := some [{ transcript := none },
                       { transcript := some "hello there" }] }
    [{ transcript := none }, { transcript := some "hello there" }]
    { transcript := some "hello there" } rfl rfl (by decide)

/-- Claim C8: `setContext(text)` called while connected (the stored data
channel open and the send succeeding) transmits exactly one
`session.update` frame, and the instructions string embedded in that
frame has length at most the configured maximum (10000) plus the length
of the truncation marker, with the marker appended exactly when the full
built instructions exceed the maximum. -/
theorem set_context_single_truncated_session_update (v : VoiceSession)
    (text : String) (hc : v.state.isConnected = true)
    (hd : v.refs.dataChannel = some ChannelState.opened) :
    sessionUpdateCount (stepEv v (VoiceEvent.setContextCall text true)).2 = 1 ∧
    (∀ cfg, Action.sendFrame (RealtimeMsg.sessionUpdate cfg)
        ∈ (stepEv v (VoiceEvent.setContextCall text true)).2 →
      cfg.instructions.length
          ≤ sessionInstructionsMaxLength + truncationMarker.length ∧
      (cfg.instructions
          = jsSubstring (buildFullInstructions defaultInstructions (some text))
              sessionInstructionsMaxLength ++ truncationMarker
        ↔ sessionInstructionsMaxLength
            < (buildFullInstructions defaultInstructions (some text)).length)) := by
  have hacts : (stepEv v (VoiceEvent.setContextCall text true)).2
      = [Action.sendFrame RealtimeMsg.inputAudioBufferClear,
         Action.sendFrame (RealtimeMsg.sessionUpdate
           (sessionConfigFor
             (truncateInstructions
               (buildFullInstructions defaultInstructions (some text)))
             (!v.state.isVoiceMode)))] := by
    show (setContextImpl text true v).2 = _
    unfold setContextImpl
    dsimp only
    rw [if_pos hc, hd]
    dsimp only
    unfold updateSession
    dsimp only
    simp [sendRealtimeMessage]
  constructor
  · rw [hacts]
    rfl
  · intro cfg hmem
    rw [hacts] at hmem
    simp only [List.mem_cons, List.not_mem_nil, or_false] at hmem
    rcases hmem with h1 | h1
    · exact absurd h1 (by simp)
    · have hcfg : cfg = sessionConfigFor
          (truncateInstructions
            (buildFullInstructions defaultInstructions (some text)))
          (!v.state.isVoiceMode) := by
        simpa using h1
      subst hcfg
      exact ⟨truncateInstructions_length_le _, truncateInstructions_marker_iff _⟩

/-- Witness for `set_context_single_truncated_session_update` at a
concrete connected session. -/
theorem set_context_single_truncated_session_update_witness :
    sessionUpdateCount
      (stepEv connectedSession (VoiceEvent.setContextCall "CONTEXT" true)).2
      = 1 :=
  (set_context_single_truncated_session_update connectedSession "CONTEXT"
    (by decide) (by decide)).1

theorem stopRecordingImpl_isRecording (ok : Bool) (v : VoiceSession) :
    (stopRecordingImpl ok v).1.state.isRecording = false := by
  unfold stopRecordingImpl
  dsimp only
  split_ifs with h
  · exact h
  · rfl

theorem stopRecordingImpl_isVoiceMode (ok : Bool) (v : VoiceSession) :
    (stopRecordingImpl ok v).1.state.isVoiceMode = v.state.isVoiceMode := by
  unfold stopRecordingImpl
  dsimp only
  split_ifs <;> rfl

/-- Claim C1 counterexample: calling `disconnect()` on a reachable
recording session leaves `recording = true`: `disconnect` updates only
`isManuallyDisconnected`/`isConnected`/`isConnecting` and never clears
`isRecording`. -/
theorem disconnect_leaves_recording_flag_set :
    Reachable recordingSession ∧
    recordingSession.state.isRecording = true ∧
    (stepEv recordingSession VoiceEvent.disconnectCall).1.state.isRecording
      = true :=
  ⟨recordingSession_reachable, by decide, by decide⟩

/-- Claim C1 (amended): `disconnect()` always leaves
`manuallyDisconnected = true`, `connected = false` and
`connecting = false`, nulls the peer-connection and media-stream refs and
stops every track they referenced, and emits exactly
`onStatusChange(false)`; the `recording` flag, however, is left
unchanged rather than cleared. -/
theorem disconnect_amended_spec (v : VoiceSession) :
    (stepEv v VoiceEvent.disconnectCall).1.state.isManuallyDisconnected = true ∧
    (stepEv v VoiceEvent.disconnectCall).1.state.isConnected = false ∧
    (stepEv v VoiceEvent.disconnectCall).1.state.isConnecting = false ∧
    (stepEv v VoiceEvent.disconnectCall).1.state.isRecording
      = v.state.isRecording ∧
    (stepEv v VoiceEvent.disconnectCall).1.refs.pcSenders = none ∧
    (stepEv v VoiceEvent.disconnectCall).1.refs.mediaStream = none ∧
    (∀ i, i ∈ refTrackIds v.refs →
      trackLive (stepEv v VoiceEvent.disconnectCall).1.tracks i = false) ∧
    (stepEv v VoiceEvent.disconnectCall).2 = [Action.onStatusChange false] := by
  refine ⟨rfl, rfl, rfl, rfl, rfl, rfl, ?_, rfl⟩
  intro i hi
  show trackLive (cleanupConnections v.refs v.tracks).2 i = false
  exact trackLive_cleanup v.refs v.tracks i hi

/-- Witness for `disconnect_amended_spec`: the microphone track of a
concrete recording session is stopped by `disconnect()`. -/
theorem disconnect_amended_spec_witness :
    trackLive (stepEv recordingSession VoiceEvent.disconnectCall).1.tracks 2
      = false ∧
    (stepEv recordingSession
      VoiceEvent.disconnectCall).1.state.isManuallyDisconnected = true :=
  ⟨(disconnect_amended_spec recordingSession).2.2.2.2.2.2.1 2 (by decide),
   (disconnect_amended_spec recordingSession).1⟩

/-- Claim C2 counterexample: connect, start recording, then
`disconnect()` reaches a state with `recording = true` and
`connected = false`, violating the invariant `recording ⇒ connected`
(equally reachable via the ICE-loss handler, which also clears only
`isConnected`). -/
theorem recording_without_connected_reachable :
    Reachable (stepEv recordingSession VoiceEvent.disconnectCall).1 ∧
    (stepEv recordingSession VoiceEvent.disconnectCall).1.state.isRecording
      = true ∧
    (stepEv recordingSession VoiceEvent.disconnectCall).1.state.isConnected
      = false :=
  ⟨Reachable.step recordingSession VoiceEvent.disconnectCall
      recordingSession_reachable,
   by decide, by decide⟩

/-- Claim C2 (amended): in every state reachable by any sequence of
session operations and transport events, `connecting` and `connected`
are never both true; the other half of the claimed invariant,
`recording ⇒ connected`, fails on the code (see the counterexample). -/
theorem connecting_connected_mutual_exclusion (v : VoiceSession)
    (h : Reachable v) :
    v.state.isConnecting = false ∨ v.state.isConnected = false :=
  reachable_mutex v h

/-- Witness for `connecting_connected_mutual_exclusion` at a concrete
reachable session. -/
theorem connecting_connected_mutual_exclusion_witness :
    connectedSession.state.isConnecting = false ∨
    connectedSession.state.isConnected = false :=
  connecting_connected_mutual_exclusion connectedSession
    connectedSession_reachable

/-- The trace of claim C3's scenario: a fresh `connect()` whose
credential fetch fails (e.g. the endpoint answered HTTP 401). -/
def fetchFailTrace : List VoiceEvent :=
  [VoiceEvent.connectStart,
   VoiceEvent.connectFetchFail "Failed to create session" true]

/-- Claim C3 counterexample: a 401 from the credential endpoint during a
fresh `connect()` ends with `connecting = false` and `connected = false`,
but `onError` fires TWICE (once in `fetchEphemeralKey`'s catch and once
in `connect`'s catch), and an unforced reconnection attempt IS
scheduled — the failure is not treated as fatal. -/
theorem credential_failure_double_error_and_retry :
    (runEvents initSession fetchFailTrace).1.state.isConnecting = false ∧
    (runEvents initSession fetchFailTrace).1.state.isConnected = false ∧
    onErrorCount (runEvents initSession fetchFailTrace).2 = 2 ∧
    reconnectScheduledCount (runEvents initSession fetchFailTrace).2 = 1 :=
  ⟨by decide, by decide, by decide, by decide⟩

/-- Claim C3 (amended): when the credential fetch of a pending connect
attempt fails and the session was not manually disconnected, the page is
visible and fewer than 5 attempts are used, the attempt ends with
`connecting = false` and `connected = false`, `onError` is invoked
exactly twice (the endpoint's error message, then
`Failed to get ephemeral key`), and exactly one unforced reconnection
attempt is scheduled. -/
theorem credential_failure_amended_spec (v : VoiceSession) (errMsg : String)
    (hp : v.pendingConnect = true)
    (hm : v.state.isManuallyDisconnected = false)
    (hn : v.state.connectionAttempts < 5) :
    (stepEv v (VoiceEvent.connectFetchFail errMsg true)).1.state.isConnecting
      = false ∧
    (stepEv v (VoiceEvent.connectFetchFail errMsg true)).1.state.isConnected
      = false ∧
    (stepEv v (VoiceEvent.connectFetchFail errMsg true)).2
      = [Action.onError errMsg,
         Action.onError "Failed to get ephemeral key",
         Action.scheduleReconnect
           (min (1000 * (3/2 : ℚ) ^ v.state.connectionAttempts) 30000)
           false] := by
  have hp' : ¬ v.pendingConnect = false := by simp [hp]
  unfold stepEv connectFetchFailImpl
  dsimp only
  rw [if_neg hp', if_pos hm]
  unfold attemptReconnect
  dsimp only
  rw [if_neg (by simp [hm]), if_neg (by simp),
      if_neg (by simp [maxReconnectAttempts]; omega)]
  dsimp only
  exact ⟨rfl, rfl, rfl⟩

/-- Witness for `credential_failure_amended_spec` at the concrete session
produced by `connectStart` from the initial session. -/
theorem credential_failure_amended_spec_witness :
    onErrorCount (stepEv (stepEv initSession VoiceEvent.connectStart).1
      (VoiceEvent.connectFetchFail "Unauthorized" true)).2 = 2 := by
  have h := (credential_failure_amended_spec
    (stepEv initSession VoiceEvent.connectStart).1 "Unauthorized"
    (by decide) (by decide) (by decide)).2.2
  rw [h]
  rfl

/-- The trace of claim C4's scenario: a document context stored before a
successful (re)connect. -/
def contextThenConnectTrace : List VoiceEvent :=
  [VoiceEvent.setContextCall "DOCUMENT CONTEXT" true,
   VoiceEvent.connectStart, VoiceEvent.connectSuccess ChannelState.opened]

/-- Claim C4 counterexample: with a document context previously set and
not cleared, a successful `connect()` marks the session connected while
the whole trace transmits NO `session.update` frame at all — the
context is silently dropped by the (re)connect. -/
theorem reconnect_drops_context :
    (runEvents initSession contextThenConnectTrace).1.documentContext
      = some "DOCUMENT CONTEXT" ∧
    (runEvents initSession contextThenConnectTrace).1.state.isConnected
      = true ∧
    sessionUpdateCount (runEvents initSession contextThenConnectTrace).2 = 0 :=
  ⟨by decide, by decide, by decide⟩

/-- Claim C4 (amended): the success path of `connect()` only marks the
session connected (emitting `onStatusChange(true)`); it transmits no
data-channel frame, so a previously stored document context is NOT
re-applied on (re)connection — the context reaches the session only when
`setContext` is called while already connected. -/
theorem connect_success_sends_no_frames (v : VoiceSession)
    (dc : ChannelState) :
    sendFrameCount (stepEv v (VoiceEvent.connectSuccess dc)).2 = 0 ∧
    (stepEv v (VoiceEvent.connectSuccess dc)).1.documentContext
      = v.documentContext := by
  unfold stepEv connectSuccessImpl
  dsimp only
  split_ifs <;> exact ⟨rfl, rfl⟩

/-- A session whose reconnection counter already holds two failed
attempts. -/
def attemptsTwoSession : VoiceSession :=
  { initSession with
    state := { initialVoiceState with connectionAttempts := 2 } }

/-- Claim C5: in every reachable session the reconnection attempt counter
is at most 5; an unforced `attemptReconnect` with counter value n < 5
(not connecting, not manually disconnected, page visible) schedules one
attempt after exactly `min(1000 * 1.5^n, 30000)` ms and stores counter
n+1; an unforced trigger with the counter at 5 schedules nothing, resets
the counter and raises the terminal error; a forced reconnect schedules
with the 500 ms base delay (exponent reset to 0) and stores counter 1. -/
theorem reconnect_backoff_spec :
    (∀ v, Reachable v → v.state.connectionAttempts ≤ 5) ∧
    (∀ v n, v.state.isConnecting = false →
      v.state.isManuallyDisconnected = false →
      v.state.connectionAttempts = n → n < 5 →
      (attemptReconnect false true v).2
          = [Action.scheduleReconnect (min (1000 * (3/2 : ℚ) ^ n) 30000) false] ∧
      (attemptReconnect false true v).1.state.connectionAttempts = n + 1) ∧
    (∀ v, v.state.isConnecting = false →
      v.state.isManuallyDisconnected = false →
      5 ≤ v.state.connectionAttempts →
      (attemptReconnect false true v).2 = [] ∧
      (attemptReconnect false true v).1.state.error
          = some "Failed to reconnect after multiple attempts" ∧
      (attemptReconnect false true v).1.state.connectionAttempts = 0) ∧
    (∀ v pv,
      (attemptReconnect true pv v).2 = [Action.scheduleReconnect 500 true] ∧
      (attemptReconnect true pv v).1.state.connectionAttempts = 1) := by
  refine ⟨reachable_attempts_le, ?_, ?_, ?_⟩
  · intro v n hc hm hn hlt
    subst hn
    unfold attemptReconnect
    dsimp only
    rw [if_neg (by simp [hc, hm]), if_neg (by simp),
        if_neg (by simp [maxReconnectAttempts]; omega)]
    exact ⟨rfl, rfl⟩
  · intro v hc hm hge
    unfold attemptReconnect
    dsimp only
    rw [if_neg (by simp [hc, hm]), if_neg (by simp),
        if_pos (by simp [maxReconnectAttempts]; omega)]
    exact ⟨rfl, rfl, rfl⟩
  · intro v pv
    unfold attemptReconnect
    dsimp only
    rw [if_neg (by simp), if_neg (by simp), if_neg (by simp)]
    have hdelay : min ((if (true : Bool) then (500 : ℚ) else 1000)
        * (3/2 : ℚ) ^ (if (true : Bool) then 0 else v.state.connectionAttempts))
        30000 = 500 := by
      norm_num
    constructor
    · dsimp only
      rw [hdelay]
    · simp [VoiceSession.cleanup]

/-- Witness for `reconnect_backoff_spec`: the counter bound at the
initial session, the delay formula at counter value 2, the terminal
branch, and the forced branch at concrete sessions. -/
theorem reconnect_backoff_spec_witness :
    initSession.state.connectionAttempts ≤ 5 ∧
    (attemptReconnect false true attemptsTwoSession).2
      = [Action.scheduleReconnect (min (1000 * (3/2 : ℚ) ^ (2 : ℕ)) 30000)
          false] ∧
    (attemptReconnect true true attemptsTwoSession).2
      = [Action.scheduleReconnect 500 true] :=
  ⟨reconnect_backoff_spec.1 initSession Reachable.init,
   (reconnect_backoff_spec.2.1 attemptsTwoSession 2 rfl rfl rfl
      (by decide)).1,
   (reconnect_backoff_spec.2.2.2 attemptsTwoSession true).1⟩

/-- Claim C7 counterexample: `startRecording` does not require voice mode,
so `recording = true` with `voiceModeEnabled = false` is reachable; a
`toggleVoiceMode()` call there flips voice mode ON and leaves recording
running — it does not stop recording first. -/
theorem toggle_voice_mode_keeps_recording :
    recordingSession.state.isRecording = true ∧
    recordingSession.state.isVoiceMode = false ∧
    (stepEv recordingSession
      (VoiceEvent.toggleVoiceModeCall true)).1.state.isRecording = true ∧
    (stepEv recordingSession
      (VoiceEvent.toggleVoiceModeCall true)).1.state.isVoiceMode = true :=
  ⟨by decide, by decide, by decide, by decide⟩

/-- Claim C7 (amended): `toggleVoiceMode()` stops recording only when
voice mode was ON before the call (and the flip happens before the
stop): any call made with voice mode on ends with voice mode off and
`recording = false`; a call made with voice mode off turns voice mode on
and leaves `recording` unchanged. -/
theorem toggle_voice_mode_amended_spec (v : VoiceSession) (ok : Bool) :
    (v.state.isVoiceMode = true →
      (stepEv v (VoiceEvent.toggleVoiceModeCall ok)).1.state.isVoiceMode
        = false ∧
      (stepEv v (VoiceEvent.toggleVoiceModeCall ok)).1.state.isRecording
        = false) ∧
    (v.state.isVoiceMode = false →
      (stepEv v (VoiceEvent.toggleVoiceModeCall ok)).1.state.isVoiceMode
        = true ∧
      (stepEv v (VoiceEvent.toggleVoiceModeCall ok)).1.state.isRecording
        = v.state.isRecording) := by
  constructor
  · intro hv
    unfold stepEv toggleVoiceModeImpl
    dsimp only
    split_ifs with hcond
    · refine ⟨?_, stopRecordingImpl_isRecording ok _⟩
      rw [stopRecordingImpl_isVoiceMode]
      simp [hv]
    · have hr : v.state.isRecording = false := by
        rcases Bool.eq_false_or_eq_true v.state.isRecording with h | h
        · exact absurd ⟨hv, h⟩ hcond
        · exact h
      exact ⟨by simp [hv], by simp [hr]⟩
  · intro hv
    unfold stepEv toggleVoiceModeImpl
    dsimp only
    rw [if_neg (by simp [hv])]
    exact ⟨by simp [hv], rfl⟩

/-- A reachable session that is recording with voice mode enabled. -/
def voiceRecordingSession : VoiceSession :=
  (runEvents initSession
    [VoiceEvent.connectStart, VoiceEvent.connectSuccess ChannelState.opened,
     VoiceEvent.toggleVoiceModeCall true,
     VoiceEvent.startRecordingOk true]).1

/-- Witness for `toggle_voice_mode_amended_spec`: turning voice mode off
while recording ends with recording stopped. -/
theorem toggle_voice_mode_amended_spec_witness :
    (stepEv voiceRecordingSession
      (VoiceEvent.toggleVoiceModeCall true)).1.state.isVoiceMode = false ∧
    (stepEv voiceRecordingSession
      (VoiceEvent.toggleVoiceModeCall true)).1.state.isRecording = false :=
  (toggle_voice_mode_amended_spec voiceRecordingSession true).1 (by decide)

end RagApp
